import Mathlib

/-!
Verification development for the RAG-pdf-chatbot repository.

The embedding covers the three core modules:
* `src/src/llm_client.py` — `GroqClient.generate_response` (the Answer Synthesizer),
* `src/src/rag_system.py` — `RAGSystem.query` (the Query Orchestrator),
* `src/saver.py` — `RAGSystemSaver` (the Conversation Store over SQLite and JSON).

Python dictionaries are embedded as structures; keys that are present only on
some code paths become `Option` fields. Python floats are idealised as
rationals (`ℚ`). The completion service (`self.client.chat.completions.create`)
is a collaborator and enters as a function parameter `llm`; the second
component of `generate_response`'s result counts how often it was invoked.
The `:.1%` float formatting of the relevance figure is abstracted as a
parameter `fmt : ℚ → String`.
-/

/-- The `metadata` mapping of a retrieved context chunk. `ctx['metadata'].get(...)`
is used with defaults `"Unknown"` / `"N/A"`, so both keys are `Option`s. -/
structure ChunkMeta where
  source_file : Option String
  page : Option String
deriving DecidableEq

/-- One retrieved context chunk, as consumed by `GroqClient.generate_response`:
`ctx['content']`, `ctx['metadata']`, and `ctx.get('similarity_score', 0.0)`. -/
structure Context where
  content : String
  metadata : ChunkMeta
  similarity_score : Option ℚ
deriving DecidableEq

/-- One entry of the `sources` list built by `generate_response`
(`{"id": i + 1, "file": ..., "page": ..., "similarity": ...}`). -/
structure SourceAttr where
  id : Nat
  file : String
  page : String
  similarity : ℚ
deriving DecidableEq

/-- The dictionary returned by `GroqClient.generate_response`. -/
structure GenResponse where
  answer : String
  sources : List SourceAttr
  model : String
  num_contexts_used : Nat
  avg_similarity : ℚ
deriving DecidableEq

/-- The Python idiom `sum(xs) / len(xs) if xs else 0`, used both at
`llm_client.py:114` and `saver.py:120-121`. -/
def pyMean (xs : List ℚ) : ℚ :=
  if xs.isEmpty then 0 else xs.sum / xs.length

/-- The in-prompt citation marker for index `i`: the fragment of the f-string
at `llm_client.py:70` up to the closing bracket. -/
def citationMarker (i : Nat) : String :=
  "[" ++ toString i ++ "]"

/-- The rest of the f-string at `llm_client.py:70` after the citation marker. -/
def contextTail (fmt : ℚ → String) (c : Context) : String :=
  " (Source: " ++ c.metadata.source_file.getD "Unknown" ++
    ", Page: " ++ c.metadata.page.getD "N/A" ++
    ", Relevance: " ++ fmt (c.similarity_score.getD 0) ++ ")\n" ++ c.content

/-- One formatted context block `"[i] (Source: ..., Page: ..., Relevance: ...)\n..."`. -/
def formatContext (fmt : ℚ → String) (i : Nat) (c : Context) : String :=
  citationMarker i ++ contextTail fmt c

/-- The `formatted_contexts` list: `enumerate(contexts, 1)` becomes a counter
that starts at `i` and increases along the list. -/
def formatBlocks (fmt : ℚ → String) (i : Nat) : List Context → List String
  | [] => []
  | c :: cs => formatContext fmt i c :: formatBlocks fmt (i + 1) cs

/-- Python's `sep.join(xs)`. -/
def joinSep (sep : String) : List String → String
  | [] => ""
  | [x] => x
  | x :: y :: xs => x ++ sep ++ joinSep sep (y :: xs)

/-- The fixed instruction text of the prompt template, up to and including
`"CONTEXT:\n"` (llm_client.py:76-86). -/
def promptHeader : String :=
  "You are a helpful AI assistant. Answer the user's question based ONLY on the provided context from PDF documents.\n\nIMPORTANT INSTRUCTIONS:\n1. Only use information from the context below\n2. Cite sources using [1], [2], [3] format after relevant statements\n3. If the context doesn't contain enough information, clearly state that\n4. Be concise but comprehensive\n5. If you're uncertain, express appropriate confidence levels\n\nCONTEXT:\n"

/-- The full rendered prompt (llm_client.py:73-90):
header, the joined context blocks, then the question and the answer cue. -/
def renderPrompt (fmt : ℚ → String) (query : String) (contexts : List Context) : String :=
  promptHeader ++ joinSep "\n\n" (formatBlocks fmt 1 contexts) ++
    "\n\nQUESTION: " ++ query ++ "\n\nANSWER (with citations):"

/-- The `sources` list of llm_client.py:103-111: `enumerate(contexts)` with
`"id": i + 1` becomes a counter starting at `k` (called with `k = 1`). -/
def sourcesFrom (k : Nat) : List Context → List SourceAttr
  | [] => []
  | c :: cs =>
      { id := k,
        file := c.metadata.source_file.getD "Unknown",
        page := c.metadata.page.getD "N/A",
        similarity := c.similarity_score.getD 0 } :: sourcesFrom (k + 1) cs

/-- `GroqClient.generate_response` (llm_client.py:32-132). The collaborator
`llm` stands for the one `chat.completions.create` call on the rendered
prompt; `Except.error e` is the raised exception caught at line 124. The
second component counts the completion-service invocations. -/
def generate_response (llm : String → Except String String) (fmt : ℚ → String)
    (query : String) (contexts : List Context) (model : String) :
    GenResponse × Nat :=
  if contexts.isEmpty then
    ({ answer := "I couldn't find any relevant information in the documents to answer your question.",
       sources := [], model := model, num_contexts_used := 0, avg_similarity := 0 }, 0)
  else
    match llm (renderPrompt fmt query contexts) with
    | Except.ok answer =>
        let sources := sourcesFrom 1 contexts
        ({ answer := answer, sources := sources, model := model,
           num_contexts_used := contexts.length,
           avg_similarity := pyMean (sources.map (fun s => s.similarity)) }, 1)
    | Except.error e =>
        ({ answer := "Error generating response: " ++ e, sources := [],
           model := model, num_contexts_used := 0, avg_similarity := 0 }, 1)

/-- One entry of `RAGSystem.conversation_history` (rag_system.py:69-74). -/
structure LogEntry where
  question : String
  answer : String
  sources : List SourceAttr
  num_contexts : Nat
deriving DecidableEq

/-- The dictionary returned by `RAGSystem.query`. The zero-context branch
(rag_system.py:52-57) builds only `answer`, `sources`, `num_contexts_used`
and `question`; the synthesizer branch also carries `model`, `avg_similarity`
and `retrieved_contexts`. Keys present on one branch only are `Option`s,
`none` meaning the key is absent from the dictionary. -/
structure QueryResponse where
  answer : String
  sources : List SourceAttr
  num_contexts_used : Nat
  question : String
  model : Option String
  avg_similarity : Option ℚ
  retrieved_contexts : Option (List Context)
deriving DecidableEq

/-- The state of a `RAGSystem` instance (rag_system.py:16-22). The four
collaborator fields are opaque to `query` and are carried at arbitrary
types. -/
structure RAGState (V E L R : Type) where
  vector_store : V
  embedding_manager : E
  llm_client : L
  retriever : R
  conversation_history : List LogEntry

/-- One SQLite row of the `conversations` table (saver.py:71-82). `id` is the
AUTOINCREMENT key, `created_at` the server-assigned timestamp. -/
structure ConvRow where
  id : Nat
  created_at : Nat
  question : String
  answer : String
  num_contexts : Nat
  avg_similarity : ℚ
  model_used : String
  session_id : String
deriving DecidableEq

/-- One SQLite row of the `sources` table (saver.py:85-95). Its own
AUTOINCREMENT key is never read back by any operation and is omitted. -/
structure SourceRow where
  conversation_id : Nat
  source_file : String
  page : String
  similarity : ℚ
deriving DecidableEq

/-- The contents of one `<name>_conversations.db` file. -/
structure StoreDB where
  conversations : List ConvRow
  sources : List SourceRow
deriving DecidableEq

/-- The schema just after `_init_sqlite_db` on a fresh path. -/
def emptyStoreDB : StoreDB := { conversations := [], sources := [] }

/-- `RAGSystem.query` (rag_system.py:26-76). The retriever and the completion
service are collaborators passed as functions; the conversation-store file
contents are threaded through untouched to state that `query` performs no
store write. Returns the new orchestrator state, the store contents and the
response dictionary. -/
def RAGSystem.query {V E L R : Type}
    (retrieve : String → List Context)
    (llm : String → Except String String) (fmt : ℚ → String) (model : String)
    (st : RAGState V E L R) (store : Option StoreDB) (question : String) :
    RAGState V E L R × Option StoreDB × QueryResponse :=
  let contexts := retrieve question
  let response : QueryResponse :=
    if contexts.isEmpty then
      { answer := "I could not find relevant information to answer this question.",
        sources := [], num_contexts_used := 0, question := question,
        model := none, avg_similarity := none, retrieved_contexts := none }
    else
      let r := (generate_response llm fmt question contexts model).1
      { answer := r.answer, sources := r.sources,
        num_contexts_used := r.num_contexts_used, question := question,
        model := some r.model, avg_similarity := some r.avg_similarity,
        retrieved_contexts := some contexts }
  let entry : LogEntry :=
    { question := question, answer := response.answer,
      sources := response.sources, num_contexts := response.num_contexts_used }
  ({ st with conversation_history := st.conversation_history ++ [entry] },
   store, response)

/-- The conversation row inserted for one history entry
(saver.py:118-134): `avg_similarity` is computed at write time from the
entry's sources, `model_used` is the literal string of line 132. -/
def convRowOf (cid t : Nat) (sid : String) (e : LogEntry) : ConvRow :=
  { id := cid, created_at := t, question := e.question, answer := e.answer,
    num_contexts := e.num_contexts,
    avg_similarity := pyMean (e.sources.map (fun s => s.similarity)),
    model_used := "llama-3.3-70b-versatile", session_id := sid }

/-- The source rows inserted for one history entry (saver.py:139-149). -/
def srcRowsOf (cid : Nat) (e : LogEntry) : List SourceRow :=
  e.sources.map (fun s =>
    { conversation_id := cid, source_file := s.file, page := s.page,
      similarity := s.similarity })

/-- The insert loop of `save_conversations_sqlite` (saver.py:118-149). Rows
are only ever inserted, never deleted, so the AUTOINCREMENT id handed out
next is the row count plus one. -/
def insertConversations (sid : String) (t : Nat) :
    StoreDB → List LogEntry → StoreDB
  | db, [] => db
  | db, conv :: rest =>
      let cid := db.conversations.length + 1
      insertConversations sid t
        { conversations := db.conversations ++ [convRowOf cid t sid conv],
          sources := db.sources ++ srcRowsOf cid conv } rest

/-- `RAGSystemSaver.save_conversations_sqlite` (saver.py:105-155):
idempotent schema initialization (`db.getD emptyStoreDB`) followed by the
insert loop. `sid` is the resolved session id, `t` the shared
`created_at` timestamp the server assigns during the one transaction. -/
def save_conversations_sqlite (db : Option StoreDB) (history : List LogEntry)
    (sid : String) (t : Nat) : StoreDB :=
  insertConversations sid t (db.getD emptyStoreDB) history

/-- Insertion step of the stable descending sort modelling
`ORDER BY created_at DESC`: among equal timestamps the earlier row stays
first. -/
def insertDesc (r : ConvRow) : List ConvRow → List ConvRow
  | [] => [r]
  | x :: xs =>
      if x.created_at ≤ r.created_at then r :: x :: xs else x :: insertDesc r xs

/-- Stable sort by `created_at` descending (`ORDER BY created_at DESC`). -/
def sortDesc : List ConvRow → List ConvRow
  | [] => []
  | x :: xs => insertDesc x (sortDesc xs)

/-- One source dictionary of a loaded conversation (saver.py:195-202). -/
structure LoadedSource where
  file : String
  page : String
  similarity : ℚ
deriving DecidableEq

/-- One dictionary of the list returned by `load_conversations_sqlite`
(saver.py:188-203). -/
structure LoadedConv where
  id : Nat
  question : String
  answer : String
  num_contexts : Nat
  avg_similarity : ℚ
  created_at : Nat
  sources : List LoadedSource
deriving DecidableEq

/-- `RAGSystemSaver.load_conversations_sqlite` (saver.py:157-207): missing
database file (`none`) yields `[]`; otherwise the most recent `limit`
conversations, each with the source rows keyed to its id. -/
def load_conversations_sqlite (db : Option StoreDB) (limit : Nat) :
    List LoadedConv :=
  match db with
  | none => []
  | some db =>
      ((sortDesc db.conversations).take limit).map (fun c =>
        { id := c.id, question := c.question, answer := c.answer,
          num_contexts := c.num_contexts, avg_similarity := c.avg_similarity,
          created_at := c.created_at,
          sources := (db.sources.filter
              (fun s => s.conversation_id == c.id)).map (fun s =>
            { file := s.source_file, page := s.page,
              similarity := s.similarity }) })

/-- Whether `pat` is an initial segment of `s` (character lists). -/
def matchesAt : List Char → List Char → Bool
  | _, [] => true
  | [], _ :: _ => false
  | c :: s, d :: p => c == d && matchesAt s p

/-- Whether `pat` occurs contiguously somewhere inside `s`. -/
def containsSub : List Char → List Char → Bool
  | [], pat => pat.isEmpty
  | s@(_ :: rest), pat => matchesAt s pat || containsSub rest pat

/-- SQLite `x LIKE '%pat%'` for a pattern without wildcard characters:
ASCII-case-insensitive substring containment. -/
def likeContains (s pat : String) : Bool :=
  containsSub (s.data.map Char.toLower) (pat.data.map Char.toLower)

/-- The WHERE clause of `search_conversations` (saver.py:262-267). SQL binds
AND tighter than OR, so the similarity threshold reaches only the
answer-match branch. -/
def searchMatch (q : String) (m : ℚ) (r : ConvRow) : Bool :=
  likeContains r.question q ||
    (likeContains r.answer q && decide (m ≤ r.avg_similarity))

/-- `RAGSystemSaver.search_conversations` (saver.py:250-273): missing
database yields `[]`; otherwise the matching rows ordered by `created_at`
descending. -/
def search_conversations (db : Option StoreDB) (query_text : String)
    (min_similarity : ℚ) : List ConvRow :=
  match db with
  | none => []
  | some db => sortDesc (db.conversations.filter (searchMatch query_text min_similarity))

/-- SQL `AVG(column)`: `NULL` (here `none`) over an empty table. -/
def sqlAvg (xs : List ℚ) : Option ℚ :=
  if xs.isEmpty then none else some (xs.sum / xs.length)

/-- Round-half-to-even of a rational, the rounding Python's `round` intends. -/
def roundHalfEven (y : ℚ) : ℤ :=
  if y - ⌊y⌋ < 1/2 then ⌊y⌋
  else if 1/2 < y - ⌊y⌋ then ⌊y⌋ + 1
  else if ⌊y⌋ % 2 = 0 then ⌊y⌋ else ⌊y⌋ + 1

/-- Python's `round(x, d)` on the rational idealisation. -/
def pyRound (d : Nat) (x : ℚ) : ℚ :=
  (roundHalfEven (x * 10 ^ d) : ℚ) / 10 ^ d

/-- One entry of the `top_sources` list of `get_sqlite_stats`. -/
structure TopSource where
  file : String
  count : Nat
deriving DecidableEq

/-- The statistics dictionary of `get_sqlite_stats` (saver.py:243-248). -/
structure SqliteStats where
  total_conversations : Nat
  avg_similarity_score : ℚ
  avg_contexts_per_query : ℚ
  top_sources : List TopSource
deriving DecidableEq

/-- The distinct `source_file` values of the source rows, first occurrence
first (the `GROUP BY source_file` groups; their relative order before the
`ORDER BY count DESC` is not observable through the final sort). -/
def distinctFiles (rows : List SourceRow) : List String :=
  rows.foldl (fun acc s => if s.source_file ∈ acc then acc else acc ++ [s.source_file]) []

/-- How many source rows cite `f` (the `COUNT(*)` of the group of `f`). -/
def countFile (rows : List SourceRow) (f : String) : Nat :=
  (rows.filter (fun s => s.source_file == f)).length

/-- Stable insertion step for `ORDER BY count DESC`. -/
def insertByCount (x : TopSource) : List TopSource → List TopSource
  | [] => [x]
  | y :: ys => if y.count ≤ x.count then x :: y :: ys else y :: insertByCount x ys

/-- Stable sort of the grouped counts by `count` descending. -/
def sortByCount : List TopSource → List TopSource
  | [] => []
  | x :: xs => insertByCount x (sortByCount xs)

/-- `RAGSystemSaver.get_sqlite_stats` (saver.py:209-248): `none` models the
empty dictionary returned when the database file is missing. `x or 0`
after `AVG` becomes `Option.getD 0`. -/
def get_sqlite_stats (db : Option StoreDB) : Option SqliteStats :=
  match db with
  | none => none
  | some db =>
      some { total_conversations := db.conversations.length,
             avg_similarity_score :=
               pyRound 3 ((sqlAvg (db.conversations.map
                 (fun c => c.avg_similarity))).getD 0),
             avg_contexts_per_query :=
               pyRound 2 ((sqlAvg (db.conversations.map
                 (fun c => (c.num_contexts : ℚ)))).getD 0),
             top_sources :=
               (sortByCount ((distinctFiles db.sources).map (fun f =>
                 { file := f, count := countFile db.sources f }))).take 5 }

/-- The configuration snapshot written by `save_config_json`
(saver.py:26-42), flattened: the `<name>_config.json` file contents. -/
structure RAGConfig where
  name : String
  created_at : String
  vs_path : String
  vs_collection_name : String
  vs_total_documents : Nat
  embedding_model_name : String
  embedding_dim : Nat
  llm_provider : String
  llm_default_model : String
deriving DecidableEq

/-- `RAGSystemSaver.load_config_json` (saver.py:51-59): `open` on a missing
path raises `FileNotFoundError`; an existing file is parsed and returned. -/
def load_config_json (file : Option RAGConfig) : Except String RAGConfig :=
  match file with
  | none => Except.error "FileNotFoundError"
  | some c => Except.ok c

/-- Modelled from the spec: `avg_similarity` is "the arithmetic mean of
`similarity` across `sources`; defined as 0 when `sources` is empty". Stated
from the spec's words, to be compared with the values the code computes. -/
def specMeanSimilarity (sims : List ℚ) : ℚ :=
  if sims = [] then 0 else sims.sum / sims.length

/-- Closed form of the rows the insert loop appends: one conversation row per
history entry, ids counted up from `a`, all sharing the timestamp `t`. -/
def allConvRows (a t : Nat) (sid : String) : List LogEntry → List ConvRow
  | [] => []
  | e :: es => convRowOf a t sid e :: allConvRows (a + 1) t sid es

/-- Closed form of the source rows the insert loop appends, grouped per
conversation, conversation ids counted up from `a`. -/
def allSrcRows (a : Nat) : List LogEntry → List SourceRow
  | [] => []
  | e :: es => srcRowsOf a e ++ allSrcRows (a + 1) es

/-- Occurrence of a list of fragments inside a character list: the list
splits as text, first fragment, text, second fragment, and so on, left to
right and without overlap. -/
inductive ContainsInOrder : List Char → List (List Char) → Prop
  | nil (s : List Char) : ContainsInOrder s []
  | cons (a m b : List Char) {ms : List (List Char)}
      (h : ContainsInOrder b ms) : ContainsInOrder (a ++ (m ++ b)) (m :: ms)

/-- The markers `[i], [i+1], ...`, `n` of them. -/
def markersFrom (i : Nat) : Nat → List String
  | 0 => []
  | n + 1 => citationMarker i :: markersFrom (i + 1) n

/-- The citation markers `[1]` through `[n]`. -/
def citationMarkers (n : Nat) : List String := markersFrom 1 n

/-- The fragments `ms` occur inside the string `s`, in order. -/
def StrContainsInOrder (s : String) (ms : List String) : Prop :=
  ContainsInOrder s.data (ms.map String.data)

/-- Projection of a loaded conversation to the fields the round-trip claim
requires to be reproduced: question, answer, num_contexts and the sources. -/
def loadedView (c : LoadedConv) : String × String × Nat × List LoadedSource :=
  (c.question, c.answer, c.num_contexts, c.sources)

/-- The same view computed from the in-memory history entry that was
persisted. -/
def entryView (e : LogEntry) : String × String × Nat × List LoadedSource :=
  (e.question, e.answer, e.num_contexts,
    e.sources.map (fun s =>
      { file := s.file, page := s.page, similarity := s.similarity }))

/-- A stored conversation whose question matches the text query while its
average similarity lies below the threshold used in the counterexample. -/
def c1row : ConvRow :=
  { id := 1, created_at := 0, question := "invoice paid", answer := "none",
    num_contexts := 0, avg_similarity := 1/2,
    model_used := "llama-3.3-70b-versatile", session_id := "s" }

/-- A concrete retrieved context chunk used by the witnesses. -/
def ctx0 : Context :=
  { content := "Alpha beta.",
    metadata := { source_file := some "doc.pdf", page := some "2" },
    similarity_score := some (1/2) }

/-- A concrete history entry used by the witnesses. -/
def entry0 : LogEntry :=
  { question := "q1", answer := "a1", num_contexts := 1,
    sources := [{ id := 1, file := "f.pdf", page := "3", similarity := 9/10 }] }

lemma string_append_ne_empty (a b : String) (h : a ≠ "") : a ++ b ≠ "" := by
  intro hab
  apply h
  have hd := congrArg String.data hab
  rw [String.data_append] at hd
  have hnil : a.data = [] := (List.append_eq_nil.mp hd).1
  cases a with
  | mk d => cases hnil; rfl

lemma pyMean_eq_specMean (xs : List ℚ) : pyMean xs = specMeanSimilarity xs := by
  cases xs <;> simp [pyMean, specMeanSimilarity]

/-- C4: on an empty contexts list `generate_response` short-circuits to the
fixed no-relevant-information answer with empty sources,
`num_contexts_used = 0` and `avg_similarity = 0`, and the invocation count 0
(together with the result not depending on `llm`) shows the completion
service is never called on this path. -/
theorem C4_empty_contexts_short_circuit (llm : String → Except String String)
    (fmt : ℚ → String) (query model : String) :
    generate_response llm fmt query [] model =
      ({ answer := "I couldn't find any relevant information in the documents to answer your question.",
         sources := [], model := model, num_contexts_used := 0,
         avg_similarity := 0 }, 0) := rfl

/-- C9: every read operation against a store that was never created returns
an empty or zero result — `load_conversations_sqlite` and
`search_conversations` return `[]`, `get_sqlite_stats` returns the empty
dictionary — while `load_config_json` signals a distinct not-found failure. -/
theorem C9_missing_store_behaviour (limit : Nat) (q : String) (m : ℚ) :
    load_conversations_sqlite none limit = [] ∧
    search_conversations none q m = [] ∧
    get_sqlite_stats none = none ∧
    load_config_json none = Except.error "FileNotFoundError" :=
  ⟨rfl, rfl, rfl, rfl⟩

/-- C5: when the contexts are non-empty and the completion call raises,
`generate_response` still returns (rather than raising) the degraded but
structurally valid response: a non-empty answer naming the failure, empty
sources, `num_contexts_used = 0` and `avg_similarity = 0`. -/
theorem C5_generation_failure_degraded (llm : String → Except String String)
    (fmt : ℚ → String) (query model e : String) (contexts : List Context)
    (hne : contexts ≠ [])
    (herr : llm (renderPrompt fmt query contexts) = Except.error e) :
    generate_response llm fmt query contexts model =
      ({ answer := "Error generating response: " ++ e, sources := [],
         model := model, num_contexts_used := 0, avg_similarity := 0 }, 1) ∧
    (generate_response llm fmt query contexts model).1.answer ≠ "" := by
  have hne' : contexts.isEmpty = false := by
    cases contexts with
    | nil => exact absurd rfl hne
    | cons c cs => rfl
  have hmain : generate_response llm fmt query contexts model =
      ({ answer := "Error generating response: " ++ e, sources := [],
         model := model, num_contexts_used := 0, avg_similarity := 0 }, 1) := by
    unfold generate_response
    rw [hne', herr]
    rfl
  refine ⟨hmain, ?_⟩
  rw [hmain]
  exact string_append_ne_empty _ _ (by decide)

/-- C5 witness: the theorem applied to a concrete non-empty context list and
a completion collaborator that raises. -/
theorem C5_generation_failure_degraded_witness :
    generate_response (fun _ => Except.error "boom") (fun _ => "50.0%") "q"
        [ctx0] "m" =
      ({ answer := "Error generating response: " ++ "boom", sources := [],
         model := "m", num_contexts_used := 0, avg_similarity := 0 }, 1) ∧
    (generate_response (fun _ => Except.error "boom") (fun _ => "50.0%") "q"
        [ctx0] "m").1.answer ≠ "" :=
  C5_generation_failure_degraded (fun _ => Except.error "boom")
    (fun _ => "50.0%") "q" "m" "boom" [ctx0] (List.cons_ne_nil _ _) rfl

/-- C7: the `avg_similarity` that `generate_response` returns and the one
`save_conversations_sqlite` computes per stored row both equal the exact
arithmetic mean of the similarity values of the respective sources, with 0
for an empty sources list, as the spec-side `specMeanSimilarity` states. -/
theorem C7_avg_similarity_is_mean (llm : String → Except String String)
    (fmt : ℚ → String) (query model : String) (contexts : List Context)
    (cid t : Nat) (sid : String) (entry : LogEntry) :
    (generate_response llm fmt query contexts model).1.avg_similarity =
      specMeanSimilarity
        ((generate_response llm fmt query contexts model).1.sources.map
          (fun s => s.similarity)) ∧
    (convRowOf cid t sid entry).avg_similarity =
      specMeanSimilarity (entry.sources.map (fun s => s.similarity)) := by
  constructor
  · unfold generate_response
    split
    · simp [specMeanSimilarity]
    · split
      · exact pyMean_eq_specMean _
      · simp [specMeanSimilarity]
  · exact pyMean_eq_specMean _

/-- C2 counterexample: on the zero-context path the response dictionary of
`RAGSystem.query` has no `avg_similarity` key at all (the field is `none`),
so it does not contain an `avg_similarity` field equal to 0. -/
theorem C2_counterexample :
    (RAGSystem.query (fun _ => []) (fun _ => Except.ok "a") (fun _ => "p") "m"
        (⟨(), (), (), (), []⟩ : RAGState Unit Unit Unit Unit) none
        "q").2.2.avg_similarity ≠ some 0 := by
  unfold RAGSystem.query
  simp

/-- C2 (amended): when retrieval yields zero contexts, the query response
carries the fixed no-relevant-information answer, empty sources,
`num_contexts_used = 0` and no `avg_similarity` key (so a reader defaulting
the missing key to 0 observes 0). -/
theorem C2_zero_context_response {V E L R : Type}
    (retrieve : String → List Context) (llm : String → Except String String)
    (fmt : ℚ → String) (model : String) (st : RAGState V E L R)
    (store : Option StoreDB) (question : String)
    (h : retrieve question = []) :
    (RAGSystem.query retrieve llm fmt model st store question).2.2 =
      { answer := "I could not find relevant information to answer this question.",
        sources := [], num_contexts_used := 0, question := question,
        model := none, avg_similarity := none, retrieved_contexts := none } := by
  unfold RAGSystem.query
  simp [h]

/-- C2 witness: the amended theorem applied at a retriever that returns no
contexts. -/
theorem C2_zero_context_response_witness :
    (RAGSystem.query (fun _ => []) (fun _ => Except.ok "a") (fun _ => "p") "m"
        (⟨(), (), (), (), []⟩ : RAGState Unit Unit Unit Unit) none "q").2.2 =
      { answer := "I could not find relevant information to answer this question.",
        sources := [], num_contexts_used := 0, question := "q",
        model := none, avg_similarity := none, retrieved_contexts := none } :=
  C2_zero_context_response _ _ _ _ _ _ _ rfl

/-- C8: one call to `RAGSystem.query` appends exactly one entry — question,
answer, sources, num_contexts of the returned response — to the in-memory
conversation log, on both branches; the four collaborator fields are
untouched and the conversation-store contents are not written. -/
theorem C8_query_appends_one_entry {V E L R : Type}
    (retrieve : String → List Context) (llm : String → Except String String)
    (fmt : ℚ → String) (model : String) (st : RAGState V E L R)
    (store : Option StoreDB) (question : String) :
    (RAGSystem.query retrieve llm fmt model st store question).1.conversation_history
        = st.conversation_history ++
          [{ question := question,
             answer := (RAGSystem.query retrieve llm fmt model st store question).2.2.answer,
             sources := (RAGSystem.query retrieve llm fmt model st store question).2.2.sources,
             num_contexts := (RAGSystem.query retrieve llm fmt model st store question).2.2.num_contexts_used }] ∧
    (RAGSystem.query retrieve llm fmt model st store question).1.vector_store
        = st.vector_store ∧
    (RAGSystem.query retrieve llm fmt model st store question).1.embedding_manager
        = st.embedding_manager ∧
    (RAGSystem.query retrieve llm fmt model st store question).1.llm_client
        = st.llm_client ∧
    (RAGSystem.query retrieve llm fmt model st store question).1.retriever
        = st.retriever ∧
    (RAGSystem.query retrieve llm fmt model st store question).2.1 = store := by
  unfold RAGSystem.query
  exact ⟨rfl, rfl, rfl, rfl, rfl, rfl⟩

lemma mem_insertDesc {x r : ConvRow} {l : List ConvRow} :
    x ∈ insertDesc r l ↔ x = r ∨ x ∈ l := by
  induction l with
  | nil => simp [insertDesc]
  | cons y ys ih =>
      by_cases h : y.created_at ≤ r.created_at
      · simp [insertDesc, h]
      · simp [insertDesc, h, ih]
        tauto

lemma mem_sortDesc {x : ConvRow} {l : List ConvRow} :
    x ∈ sortDesc l ↔ x ∈ l := by
  induction l with
  | nil => simp [sortDesc]
  | cons y ys ih => simp [sortDesc, mem_insertDesc, ih]

lemma pairwise_insertDesc {r : ConvRow} {l : List ConvRow}
    (h : l.Pairwise (fun a b => b.created_at ≤ a.created_at)) :
    (insertDesc r l).Pairwise (fun a b => b.created_at ≤ a.created_at) := by
  induction l with
  | nil => simp [insertDesc]
  | cons y ys ih =>
      rcases List.pairwise_cons.mp h with ⟨hy, hys⟩
      by_cases hc : y.created_at ≤ r.created_at
      · simp only [insertDesc, if_pos hc]
        refine List.pairwise_cons.mpr ⟨?_, h⟩
        intro b hb
        rcases List.mem_cons.mp hb with rfl | hb
        · exact hc
        · exact le_trans (hy b hb) hc
      · simp only [insertDesc, if_neg hc]
        refine List.pairwise_cons.mpr ⟨?_, ih hys⟩
        intro b hb
        rcases mem_insertDesc.mp hb with rfl | hb
        · exact le_of_lt (not_le.mp hc)
        · exact hy b hb

lemma pairwise_sortDesc (l : List ConvRow) :
    (sortDesc l).Pairwise (fun a b => b.created_at ≤ a.created_at) := by
  induction l with
  | nil => simp [sortDesc]
  | cons y ys ih => exact pairwise_insertDesc ih

/-- C1 counterexample: a store holding one record whose question contains
the query but whose `avg_similarity` is below the threshold. `search`
returns this record, so the similarity threshold does not apply to the
question-match branch as the claim states. -/
theorem C1_counterexample :
    search_conversations
        (some { conversations := [c1row], sources := [] }) "invoice" (3/5)
      = [c1row] ∧ c1row.avg_similarity < 3/5 := by
  constructor
  · rfl
  · norm_num [c1row]

/-- C1 (amended): `search` returns exactly the stored records satisfying
`question LIKE query OR (answer LIKE query AND avg_similarity >= min)` —
SQL binds AND tighter than OR, so the threshold reaches only the
answer-match branch — ordered by `created_at` descending. -/
theorem C1_search_filter_and_order (db : StoreDB) (q : String) (m : ℚ) :
    (∀ r : ConvRow, r ∈ search_conversations (some db) q m ↔
        r ∈ db.conversations ∧
          (likeContains r.question q ||
            (likeContains r.answer q && decide (m ≤ r.avg_similarity))) = true) ∧
    (search_conversations (some db) q m).Pairwise
      (fun a b => b.created_at ≤ a.created_at) := by
  constructor
  · intro r
    simp [search_conversations, mem_sortDesc, List.mem_filter, searchMatch]
  · exact pairwise_sortDesc _

lemma ContainsInOrder.append_left {s : List Char} {ms : List (List Char)}
    (a : List Char) (h : ContainsInOrder s ms) :
    ContainsInOrder (a ++ s) ms := by
  cases h with
  | nil => exact ContainsInOrder.nil _
  | cons a' m b h' =>
      rw [← List.append_assoc]
      exact ContainsInOrder.cons (a ++ a') m b h'

lemma ContainsInOrder.append_right {s : List Char} {ms : List (List Char)}
    (t : List Char) (h : ContainsInOrder s ms) :
    ContainsInOrder (s ++ t) ms := by
  induction h with
  | nil => exact ContainsInOrder.nil _
  | cons a m b h ih =>
      rw [List.append_assoc, List.append_assoc]
      exact ContainsInOrder.cons a m (b ++ t) ih

lemma joinSep_blocks_markers (fmt : ℚ → String) (sep : String) :
    ∀ (cs : List Context) (i : Nat),
      ContainsInOrder (joinSep sep (formatBlocks fmt i cs)).data
        ((markersFrom i cs.length).map String.data) := by
  intro cs
  induction cs with
  | nil => intro i; exact ContainsInOrder.nil _
  | cons c cs ih =>
      intro i
      cases cs with
      | nil =>
          simp only [formatBlocks, joinSep, formatContext, List.length_cons,
            List.length_nil, markersFrom, List.map_cons, List.map_nil,
            String.data_append]
          exact ContainsInOrder.cons [] ((citationMarker i).data)
            ((contextTail fmt c).data) (ContainsInOrder.nil _)
      | cons c' cs' =>
          have ih' := ih (i + 1)
          rw [formatBlocks] at ih'
          simp only [List.length_cons] at ih' ⊢
          rw [formatBlocks, formatBlocks, joinSep, markersFrom]
          simp only [List.map_cons]
          rw [formatContext]
          simp only [String.data_append, List.append_assoc]
          exact ContainsInOrder.cons [] ((citationMarker i).data)
            ((contextTail fmt c).data ++ (sep.data ++
              (joinSep sep (formatContext fmt (i + 1) c' ::
                formatBlocks fmt (i + 1 + 1) cs')).data))
            (ContainsInOrder.append_left ((contextTail fmt c).data)
              (ContainsInOrder.append_left (sep.data) ih'))

lemma sourcesFrom_length : ∀ (cs : List Context) (k : Nat),
    (sourcesFrom k cs).length = cs.length := by
  intro cs
  induction cs with
  | nil => intro k; rfl
  | cons c cs ih => intro k; simp [sourcesFrom, ih]

lemma sourcesFrom_get?_id : ∀ (cs : List Context) (k i : Nat),
    i < cs.length →
    ((sourcesFrom k cs).get? i).map (fun s => s.id) = some (k + i) := by
  intro cs
  induction cs with
  | nil => intro k i hi; simp at hi
  | cons c cs ih =>
      intro k i hi
      cases i with
      | zero => simp [sourcesFrom]
      | succ i =>
          have hi' : i < cs.length := by simpa using Nat.lt_of_succ_lt_succ hi
          have h2 := ih (k + 1) i hi'
          rw [sourcesFrom, List.get?_cons_succ, h2]
          congr 1
          omega

/-- C3: for a non-empty context list whose completion call succeeds, the
rendered prompt contains the citation markers `[1]` through `[n]` in input
order, the returned sources list has one entry per context, and the entry at
index `i` carries citation id `i + 1`. -/
theorem C3_citation_ordering (llm : String → Except String String)
    (fmt : ℚ → String) (query model ans : String) (contexts : List Context)
    (hne : contexts ≠ [])
    (hok : llm (renderPrompt fmt query contexts) = Except.ok ans) :
    StrContainsInOrder (renderPrompt fmt query contexts)
        (citationMarkers contexts.length) ∧
    (generate_response llm fmt query contexts model).1.sources.length
        = contexts.length ∧
    ∀ i, i < (generate_response llm fmt query contexts model).1.sources.length →
      (((generate_response llm fmt query contexts model).1.sources.get? i).map
        (fun s => s.id)) = some (i + 1) := by
  have hne' : contexts.isEmpty = false := by
    cases contexts with
    | nil => exact absurd rfl hne
    | cons c cs => rfl
  have hsrc : (generate_response llm fmt query contexts model).1.sources
      = sourcesFrom 1 contexts := by
    unfold generate_response
    rw [hne', hok]
    rfl
  refine ⟨?_, ?_, ?_⟩
  · show ContainsInOrder (renderPrompt fmt query contexts).data
      ((citationMarkers contexts.length).map String.data)
    rw [citationMarkers, renderPrompt]
    simp only [String.data_append, List.append_assoc]
    exact ContainsInOrder.append_left _
      (ContainsInOrder.append_right _
        (joinSep_blocks_markers fmt "\n\n" contexts 1))
  · rw [hsrc]
    exact sourcesFrom_length contexts 1
  · intro i hi
    rw [hsrc] at hi ⊢
    rw [sourcesFrom_length] at hi
    rw [sourcesFrom_get?_id contexts 1 i hi]
    congr 1
    omega

/-- C3 witness: the theorem applied to one concrete context and a succeeding
completion collaborator. -/
theorem C3_citation_ordering_witness :
    StrContainsInOrder
        (renderPrompt (fun _ => "50.0%") "What?" [ctx0])
        (citationMarkers ([ctx0] : List Context).length) ∧
    (generate_response (fun _ => Except.ok "ans [1].") (fun _ => "50.0%")
        "What?" [ctx0] "m").1.sources.length = ([ctx0] : List Context).length ∧
    ∀ i, i < (generate_response (fun _ => Except.ok "ans [1].")
        (fun _ => "50.0%") "What?" [ctx0] "m").1.sources.length →
      (((generate_response (fun _ => Except.ok "ans [1].") (fun _ => "50.0%")
          "What?" [ctx0] "m").1.sources.get? i).map (fun s => s.id))
        = some (i + 1) :=
  C3_citation_ordering (fun _ => Except.ok "ans [1].") (fun _ => "50.0%")
    "What?" "m" "ans [1]." [ctx0] (List.cons_ne_nil _ _) rfl

lemma insertConversations_spec (sid : String) (t : Nat) :
    ∀ (es : List LogEntry) (db : StoreDB),
      insertConversations sid t db es =
        { conversations := db.conversations ++
            allConvRows (db.conversations.length + 1) t sid es,
          sources := db.sources ++
            allSrcRows (db.conversations.length + 1) es } := by
  intro es
  induction es with
  | nil => intro db; simp [insertConversations, allConvRows, allSrcRows]
  | cons e es ih =>
      intro db
      rw [insertConversations, ih]
      simp [allConvRows, allSrcRows, List.length_append, List.append_assoc]

lemma allConvRows_length (t : Nat) (sid : String) :
    ∀ (es : List LogEntry) (a : Nat),
      (allConvRows a t sid es).length = es.length := by
  intro es
  induction es with
  | nil => intro a; rfl
  | cons e es ih => intro a; simp [allConvRows, ih]

lemma allConvRows_created (t : Nat) (sid : String) :
    ∀ (es : List LogEntry) (a : Nat) (r : ConvRow),
      r ∈ allConvRows a t sid es → r.created_at = t := by
  intro es
  induction es with
  | nil => intro a r hr; simp [allConvRows] at hr
  | cons e es ih =>
      intro a r hr
      rcases List.mem_cons.mp hr with rfl | hr
      · rfl
      · exact ih (a + 1) r hr

lemma insertDesc_front {t : Nat} {r : ConvRow} {l : List ConvRow}
    (hr : r.created_at = t) (hl : ∀ x ∈ l, x.created_at = t) :
    insertDesc r l = r :: l := by
  cases l with
  | nil => rfl
  | cons x xs =>
      have hx : x.created_at ≤ r.created_at := by
        rw [hr, hl x (List.mem_cons_self x xs)]
      simp [insertDesc, hx]

lemma sortDesc_eq_self {t : Nat} :
    ∀ (l : List ConvRow), (∀ x ∈ l, x.created_at = t) → sortDesc l = l := by
  intro l
  induction l with
  | nil => intro h; rfl
  | cons x xs ih =>
      intro h
      rw [sortDesc, ih (fun y hy => h y (List.mem_cons_of_mem x hy))]
      exact insertDesc_front (h x (List.mem_cons_self x xs))
        (fun y hy => h y (List.mem_cons_of_mem x hy))

lemma srcRowsOf_filter_eq (a : Nat) (e : LogEntry) :
    (srcRowsOf a e).filter (fun s => s.conversation_id == a) = srcRowsOf a e := by
  apply List.filter_eq_self.mpr
  intro s hs
  rcases List.mem_map.mp hs with ⟨x, hx, rfl⟩
  simp

lemma srcRowsOf_filter_ne {c a : Nat} (h : c ≠ a) (e : LogEntry) :
    (srcRowsOf a e).filter (fun s => s.conversation_id == c) = [] := by
  apply List.filter_eq_nil_iff.mpr
  intro s hs
  rcases List.mem_map.mp hs with ⟨x, hx, rfl⟩
  simp
  omega

lemma allSrcRows_filter_small :
    ∀ (es : List LogEntry) (a c : Nat), c < a →
      (allSrcRows a es).filter (fun s => s.conversation_id == c) = [] := by
  intro es
  induction es with
  | nil => intro a c h; rfl
  | cons e es ih =>
      intro a c h
      simp only [allSrcRows, List.filter_append]
      rw [srcRowsOf_filter_ne (by omega), ih (a + 1) c (by omega)]
      rfl

lemma allSrcRows_filter_at :
    ∀ (es : List LogEntry) (a k : Nat) (hk : k < es.length),
      (allSrcRows a es).filter (fun s => s.conversation_id == a + k)
        = srcRowsOf (a + k) (es.get ⟨k, hk⟩) := by
  intro es
  induction es with
  | nil => intro a k hk; simp at hk
  | cons e es ih =>
      intro a k hk
      simp only [allSrcRows, List.filter_append]
      cases k with
      | zero =>
          simp only [Nat.add_zero]
          rw [srcRowsOf_filter_eq, allSrcRows_filter_small es (a + 1) a (by omega)]
          simp
      | succ k =>
          have hk' : k < es.length := by
            simpa using Nat.lt_of_succ_lt_succ hk
          rw [srcRowsOf_filter_ne (by omega)]
          have harith : a + (k + 1) = (a + 1) + k := by omega
          rw [harith, ih (a + 1) k hk']
          simp

lemma loaded_map (t : Nat) (sid : String) (srcs : List SourceRow) :
    ∀ (es : List LogEntry) (a : Nat),
      (∀ (k : Nat) (hk : k < es.length),
        srcs.filter (fun s => s.conversation_id == a + k)
          = srcRowsOf (a + k) (es.get ⟨k, hk⟩)) →
      (allConvRows a t sid es).map (fun c =>
          loadedView
            { id := c.id, question := c.question, answer := c.answer,
              num_contexts := c.num_contexts,
              avg_similarity := c.avg_similarity, created_at := c.created_at,
              sources := (srcs.filter
                  (fun s => s.conversation_id == c.id)).map (fun s =>
                { file := s.source_file, page := s.page,
                  similarity := s.similarity }) })
        = es.map entryView := by
  intro es
  induction es with
  | nil => intro a hf; rfl
  | cons e es ih =>
      intro a hf
      have h0 := hf 0 (Nat.succ_pos _)
      simp only [Nat.add_zero, List.get_cons_zero] at h0
      simp only [allConvRows, List.map_cons]
      congr 1
      · simp [convRowOf, h0, loadedView, entryView, srcRowsOf,
          List.map_map, Function.comp]
      · apply ih
        intro k hk
        have h1 := hf (k + 1) (Nat.succ_lt_succ hk)
        simp only [List.get_cons_succ] at h1
        have harith : a + 1 + k = a + (k + 1) := by omega
        rw [harith]
        exact h1

/-- C6: persisting a conversation history into a fresh store and loading it
back with a limit at least the number of stored records reproduces, in
order, each entry's question, answer, num_contexts and its full list of
sources (file, page, similarity each). -/
theorem C6_roundtrip (history : List LogEntry) (sid : String) (t : Nat)
    (limit : Nat) (h : history.length ≤ limit) :
    (load_conversations_sqlite
        (some (save_conversations_sqlite none history sid t)) limit).map
        loadedView
      = history.map entryView := by
  have hsave : save_conversations_sqlite none history sid t =
      { conversations := allConvRows 1 t sid history,
        sources := allSrcRows 1 history } := by
    unfold save_conversations_sqlite
    rw [insertConversations_spec]
    rfl
  rw [hsave]
  unfold load_conversations_sqlite
  dsimp only
  rw [sortDesc_eq_self (allConvRows 1 t sid history)
    (fun x hx => allConvRows_created t sid history 1 x hx)]
  rw [List.take_of_length_le (by rw [allConvRows_length]; exact h)]
  rw [List.map_map]
  have hmap := loaded_map t sid (allSrcRows 1 history) history 1
    (fun k hk => allSrcRows_filter_at history 1 k hk)
  simpa [Function.comp] using hmap

/-- C6 witness: the round-trip theorem applied to a one-entry history and
limit 5. -/
theorem C6_roundtrip_witness :
    (load_conversations_sqlite
        (some (save_conversations_sqlite none [entry0] "s" 7)) 5).map
        loadedView
      = [entry0].map entryView :=
  C6_roundtrip [entry0] "s" 7 5 (by simp)

lemma allConvRows_model (t : Nat) (sid : String) :
    ∀ (es : List LogEntry) (a : Nat),
      (allConvRows a t sid es).all
        (fun r => r.model_used == "llama-3.3-70b-versatile") = true := by
  intro es
  induction es with
  | nil => intro a; rfl
  | cons e es ih => intro a; simp [allConvRows, convRowOf, ih]

/-- C10: every conversation row that `save_conversations_sqlite` appends —
whatever history, session id, timestamp or prior store contents — carries
the constant `model_used` string `llama-3.3-70b-versatile`; the in-memory
`LogEntry` carries no model field, so no caller-supplied model can reach
the durable record. -/
theorem C10_model_used_constant (db : Option StoreDB) (history : List LogEntry)
    (sid : String) (t : Nat) :
    ((save_conversations_sqlite db history sid t).conversations.drop
        ((db.getD emptyStoreDB).conversations.length)).all
      (fun r => r.model_used == "llama-3.3-70b-versatile") = true := by
  unfold save_conversations_sqlite
  rw [insertConversations_spec, List.drop_left]
  exact allConvRows_model t sid history _
